import Mathlib

/-!
Shallow embedding of rocket-sass-fairing (src/lib.rs).

The crate is a Rocket fairing that, once at ignition, resolves a sass sheet
path from configuration, normalizes it, compiles it with the grass compiler,
resolves a cache lifetime, and publishes the result as managed state
(a SassSheet).  At request time the sheet is retrieved from managed state
(FromRequest) and rendered as an HTTP response (Responder).

External collaborators (the figment configuration extractor, the filesystem
path normalization of normpath, and the grass compiler) are modelled as
fields of an environment record Env: each is an oracle the startup code
consults, exactly at the call sites of the source.  Machine integers:
cache_max_age is an i32 in the source; it is modelled as Int (extraction of
an i32 only ever yields values in the i32 range, and no arithmetic is
performed on it, so no wrap-around can occur).
-/

namespace RocketSass

/-- Result of extracting one configuration value with
figment extract_inner, as the source distinguishes the cases:
success, a missing-value error (e.missing()), or any other extraction
error (value present but malformed). -/
inductive ExtractResult (α : Type) where
  | ok (v : α)
  | errMissing
  | errOther (e : String)
  deriving DecidableEq, Repr

/-- The published sheet: struct SassSheet of src/lib.rs
(content: String, cache_max_age: i32, path: PathBuf). -/
structure SassSheet where
  content : String
  cache_max_age : Int
  path : String
  deriving DecidableEq, Repr

/-- The external collaborators consulted by on_ignite:
the two configuration extractions, path normalization
(relative_path.normalize(), failing when the path does not exist or is not
accessible, with an error message), and the grass compiler
(grass::from_path, failing with a diagnostic string). -/
structure Env where
  sheetPathConfig : ExtractResult String
  maxAgeConfig : ExtractResult Int
  normalize : String → Except String String
  compile : String → Except String String

/-- Default sheet path of src/lib.rs line 75. -/
def defaultSheetPath : String := "assets/style.scss"

/-- Default cache lifetime of src/lib.rs line 109. -/
def defaultMaxAge : Int := 86400

/-- The relative-path resolution of src/lib.rs lines 73 to 80: a successful
extraction is used as is, a missing value falls back to the default path,
and any other extraction error aborts ignition after printing the error. -/
def resolveRelPath (cfg : ExtractResult String) : Except String String :=
  match cfg with
  | .ok p => .ok p
  | .errMissing => .ok defaultSheetPath
  | .errOther e => .error ("config error: " ++ e)

/-- The cache lifetime resolution of src/lib.rs lines 106 to 109:
extract_inner followed by unwrap_or(86400), so any extraction
error, missing or otherwise, falls back to the default. -/
def resolveCacheMaxAge (cfg : ExtractResult Int) : Int :=
  match cfg with
  | .ok v => v
  | .errMissing => defaultMaxAge
  | .errOther _ => defaultMaxAge

/-- Source lines 82 to 115: normalize the relative path (aborting with a
diagnostic naming the path on failure), compile it (aborting with the
compiler diagnostic on failure), resolve the cache lifetime, and build the
sheet.  The second component is the list of log lines emitted. -/
def compileStage (env : Env) (relative_path : String) :
    Option SassSheet × List String :=
  match env.normalize relative_path with
  | .error e =>
      (none, ["Invalid sass sheet file " ++ relative_path ++ ": " ++ e ++ "."])
  | .ok path =>
      match env.compile path with
      | .error e =>
          (none, ["Compiling sass... file " ++ path,
                  "Couldnt compile sass: " ++ e])
      | .ok compiled_css =>
          (some { content := compiled_css,
                  cache_max_age := resolveCacheMaxAge env.maxAgeConfig,
                  path := path },
           ["Compiling sass... file " ++ path])

/-- SassSheetFairing::on_ignite (src/lib.rs lines 65 to 116): the first
component is the managed state produced (some sheet on Ok(rocket.manage(..)),
none on Err(rocket)), the second the log lines emitted. -/
def on_ignite (env : Env) : Option SassSheet × List String :=
  match resolveRelPath env.sheetPathConfig with
  | .error msg => (none, [msg])
  | .ok relative_path => compileStage env relative_path

/-- Request-guard outcome, as in rocket::request::Outcome:
Success, Forward, or Error. -/
inductive Outcome (α : Type) where
  | success (val : α)
  | forward
  | error
  deriving DecidableEq, Repr

/-- FromRequest for &SassSheet (src/lib.rs lines 131 to 137):
req.rocket().state::<SassSheet>().or_forward(()) — success when the sheet is
in managed state, forward when it is not, never an error. -/
def from_request (st : Option SassSheet) : Outcome SassSheet :=
  match st with
  | some s => .success s
  | none => .forward

/-- An HTTP response as the Responder builds it: a header list (name, value)
and a body. -/
structure HttpResponse where
  headers : List (String × String)
  body : String
  deriving DecidableEq, Repr

/-- The response produced by the str Responder of Rocket that
respond_to delegates to: body set to the string, content type text/plain. -/
def strRespondTo (s : String) : HttpResponse :=
  { headers := [("Content-Type", "text/plain; charset=utf-8")], body := s }

/-- ResponseBuilder::header and raw_header: set a header, replacing any
existing header with the same name. -/
def setHeader (r : HttpResponse) (name value : String) : HttpResponse :=
  { r with headers := r.headers.filter (fun h => h.1 != name) ++ [(name, value)] }

/-- Responder for &SassSheet (src/lib.rs lines 138 to 146): build from the
content string response, set the content type to text/css, and set the raw
header Cache-control to max-age followed by the stored cache_max_age. -/
def respond_to (sheet : SassSheet) : HttpResponse :=
  setHeader (setHeader (strRespondTo sheet.content) "Content-Type" "text/css")
    "Cache-control" ("max-age=" ++ toString sheet.cache_max_age)

/-- SassSheetFairing::on_liftoff (src/lib.rs lines 118 to 128): reads the
managed sheet, panicking (modelled as none) when absent, and otherwise emits
three informational lines. -/
def on_liftoff (st : Option SassSheet) : Option (List String) :=
  match st with
  | some state =>
      some ["Assets:",
            "sheet path: " ++ state.path,
            "cache max age: " ++ toString state.cache_max_age]
  | none => none

/-- Rocket after launch: either orbiting with the managed sheet published by
a successful ignition, or failed (ignition returned Err and the process
never serves). -/
inductive RocketState where
  | orbit (sheet : SassSheet)
  | failed (log : List String)
  deriving DecidableEq, Repr

/-- Launch: run ignition; publish the sheet into managed state on success,
abort otherwise. -/
def launch (env : Env) : RocketState :=
  match on_ignite env with
  | (some s, _) => .orbit s
  | (none, log) => .failed log

/-- The managed state visible to request handling in a given rocket state. -/
def stateSheet : RocketState → Option SassSheet
  | .orbit s => some s
  | .failed _ => none

/-- Handling one request: a pure retrieval against the managed state; the
state itself is never written after launch. -/
def handleRequest (st : RocketState) : RocketState × Outcome SassSheet :=
  (st, from_request (stateSheet st))

/-- Handling n consecutive requests, threading the rocket state. -/
def runRequests : RocketState → Nat → RocketState × List (Outcome SassSheet)
  | st, 0 => (st, [])
  | st, Nat.succ n =>
      let p := handleRequest st
      let q := runRequests p.1 n
      (q.1, p.2 :: q.2)

/-- Inversion of a successful ignition: the path extraction did not fail
hard, normalization and compilation succeeded, and the sheet records the
compiled text, the normalized path, and the resolved cache lifetime. -/
theorem on_ignite_some_inv (env : Env) (s : SassSheet) (log : List String)
    (h : on_ignite env = (some s, log)) :
    ∃ r p, resolveRelPath env.sheetPathConfig = .ok r ∧
      env.normalize r = .ok p ∧
      env.compile p = .ok s.content ∧
      s.path = p ∧
      s.cache_max_age = resolveCacheMaxAge env.maxAgeConfig := by
  unfold on_ignite compileStage at h
  split at h
  · simp at h
  case _ r heq =>
    split at h
    · simp at h
    case _ p heq2 =>
      split at h
      · simp at h
      case _ css heq3 =>
        rw [Prod.mk.injEq] at h
        obtain ⟨h1, _⟩ := h
        rw [Option.some.injEq] at h1
        subst h1
        exact ⟨r, p, heq, heq2, heq3, rfl, rfl⟩

/-- on_ignite only consults the environment through the resolved relative
path, normalization, compilation, and the resolved cache lifetime. -/
theorem on_ignite_congr (env env2 : Env)
    (h1 : resolveRelPath env.sheetPathConfig
        = resolveRelPath env2.sheetPathConfig)
    (h2 : env.normalize = env2.normalize)
    (h3 : env.compile = env2.compile)
    (h4 : resolveCacheMaxAge env.maxAgeConfig
        = resolveCacheMaxAge env2.maxAgeConfig) :
    on_ignite env = on_ignite env2 := by
  unfold on_ignite compileStage
  rw [h1, h2, h3, h4]

/-- In orbit with sheet s, any number of requests leaves the state as is
and every retrieval succeeds with s. -/
theorem runRequests_orbit (s : SassSheet) (n : Nat) :
    runRequests (.orbit s) n = (.orbit s, List.replicate n (.success s)) := by
  induction n with
  | zero => rfl
  | succ n ih =>
      simp [runRequests, handleRequest, stateSheet, from_request, ih,
        List.replicate_succ]

/-- In the failed state, any number of requests leaves the state as is and
every retrieval forwards. -/
theorem runRequests_failed (log : List String) (n : Nat) :
    runRequests (.failed log) n = (.failed log, List.replicate n .forward) := by
  induction n with
  | zero => rfl
  | succ n ih =>
      simp [runRequests, handleRequest, stateSheet, from_request, ih,
        List.replicate_succ]

/-- A concrete environment: both settings behave as absent except that the
cache lifetime is present but malformed; the filesystem and compiler
succeed. -/
def envMalformedAge : Env :=
  { sheetPathConfig := .errMissing,
    maxAgeConfig := .errOther "eighty",
    normalize := fun r => .ok ("/app/" ++ r),
    compile := fun _ => .ok "compiled-css" }

/-- C2: respond_to on a SassSheet builds a response whose body is exactly
the stored content, whose content type header declares text/css, and whose
only other header is Cache-control with the literal value max-age=
followed by the stored cache_max_age; no further headers are present. -/
theorem c2_respond_to_spec (s : SassSheet) :
    (respond_to s).body = s.content ∧
    (respond_to s).headers =
      [("Content-Type", "text/css"),
       ("Cache-control", "max-age=" ++ toString s.cache_max_age)] :=
  ⟨rfl, rfl⟩

/-- C9: from_request returns the published sheet as a success when managed
state holds one, returns a forward when it does not, and in every case the
outcome is a success or a forward, never an error. -/
theorem c9_retrieve_spec :
    (∀ s : SassSheet, from_request (some s) = .success s) ∧
    from_request none = .forward ∧
    ∀ st : Option SassSheet,
      from_request st = .forward ∨ ∃ s, from_request st = .success s := by
  refine ⟨fun _ => rfl, rfl, fun st => ?_⟩
  cases st with
  | none => exact Or.inl rfl
  | some s => exact Or.inr ⟨s, rfl⟩

/-- A second concrete environment with a present-but-malformed cache
setting, a different filesystem and compiler output. -/
def envMalformedAge2 : Env :=
  { sheetPathConfig := .errMissing,
    maxAgeConfig := .errOther "86400.5",
    normalize := fun r => .ok ("/srv/" ++ r),
    compile := fun _ => .ok "body-css" }

/-- A concrete environment where both settings are absent and the
filesystem and compiler succeed. -/
def envDefaults : Env :=
  { sheetPathConfig := .errMissing,
    maxAgeConfig := .errMissing,
    normalize := fun r => .ok ("/opt/" ++ r),
    compile := fun _ => .ok "default-css" }

/-- The sheet published by on_ignite on envDefaults. -/
def sheetDefaults : SassSheet :=
  { content := "default-css", cache_max_age := 86400,
    path := "/opt/assets/style.scss" }

/-- A concrete environment whose cache-lifetime setting is the integer -1. -/
def envNegativeAge : Env :=
  { sheetPathConfig := .errMissing,
    maxAgeConfig := .ok (-1),
    normalize := fun r => .ok ("/var/" ++ r),
    compile := fun _ => .ok "neg-css" }

/-- A concrete environment whose path normalization fails. -/
def envBadPath : Env :=
  { sheetPathConfig := .errMissing,
    maxAgeConfig := .errMissing,
    normalize := fun _ => .error "No such file or directory (os error 2)",
    compile := fun _ => .ok "unused" }

/-- A concrete environment whose compiler rejects the source. -/
def envBadCompile : Env :=
  { sheetPathConfig := .errMissing,
    maxAgeConfig := .errMissing,
    normalize := fun r => .ok ("/www/" ++ r),
    compile := fun _ => .error "Error: expected expression" }

/-- A concrete environment whose path setting is present but malformed. -/
def envBadPathCfg : Env :=
  { sheetPathConfig := .errOther "invalid utf-8 in value",
    maxAgeConfig := .errMissing,
    normalize := fun r => .ok ("/opt/" ++ r),
    compile := fun _ => .ok "default-css" }

/-- C1 counterexample: with the cache-lifetime setting present but not an
integer, startup does not abort: ignition succeeds and publishes a sheet
with the default lifetime 86400, refuting the claim that a
configuration-shape error in the cache-lifetime setting aborts startup. -/
theorem c1_counterexample :
    envMalformedAge.maxAgeConfig = ExtractResult.errOther "eighty" ∧
    on_ignite envMalformedAge =
      (some { content := "compiled-css", cache_max_age := 86400,
              path := "/app/assets/style.scss" },
       ["Compiling sass... file /app/assets/style.scss"]) :=
  ⟨rfl, rfl⟩

/-- C1 corrected: resolving the cache lifetime reads an optional integer
setting and applies the default 86400 when the setting is absent; when the
setting is present but not an integer, the default 86400 is likewise
applied and ignition proceeds exactly as in the absent case: a malformed
cache-lifetime setting never aborts startup. -/
theorem c1_cache_shape_error_defaults (env : Env) (e : String)
    (h : env.maxAgeConfig = .errOther e) :
    on_ignite env = on_ignite { env with maxAgeConfig := .errMissing } ∧
    ∀ s log, on_ignite env = (some s, log) → s.cache_max_age = 86400 := by
  constructor
  · exact on_ignite_congr _ _ rfl rfl rfl (by rw [h]; rfl)
  · intro s log hig
    obtain ⟨r, p, _, _, _, _, hc⟩ := on_ignite_some_inv env s log hig
    rw [hc, h]
    rfl

/-- Witness for c1_cache_shape_error_defaults at envMalformedAge. -/
theorem c1_witness :
    on_ignite envMalformedAge =
      on_ignite { envMalformedAge with maxAgeConfig := .errMissing } ∧
    ∀ s log, on_ignite envMalformedAge = (some s, log) →
      s.cache_max_age = 86400 :=
  c1_cache_shape_error_defaults envMalformedAge "eighty" rfl

/-- C3: a successful ignition publishes exactly one sheet into managed
state; the state is unchanged by any number of requests and every retrieval
returns that same sheet (hence the same content and cache lifetime); if
ignition fails, no sheet exists and every retrieval reports absence. -/
theorem c3_publish_once (env : Env) :
    (∀ s log, on_ignite env = (some s, log) →
      stateSheet (launch env) = some s ∧
      ∀ n, runRequests (launch env) n =
        (.orbit s, List.replicate n (.success s))) ∧
    (∀ log, on_ignite env = (none, log) →
      stateSheet (launch env) = none ∧
      ∀ n, runRequests (launch env) n =
        (.failed log, List.replicate n .forward)) := by
  constructor
  · intro s log h
    have hl : launch env = .orbit s := by simp [launch, h]
    rw [hl]
    exact ⟨rfl, fun n => runRequests_orbit s n⟩
  · intro log h
    have hl : launch env = .failed log := by simp [launch, h]
    rw [hl]
    exact ⟨rfl, fun n => runRequests_failed log n⟩

/-- Witness for c3_publish_once at envDefaults, running three requests. -/
theorem c3_witness :
    stateSheet (launch envDefaults) = some sheetDefaults ∧
    runRequests (launch envDefaults) 3 =
      (.orbit sheetDefaults, List.replicate 3 (.success sheetDefaults)) := by
  have h := (c3_publish_once envDefaults).1 sheetDefaults
    ["Compiling sass... file /opt/assets/style.scss"] rfl
  exact ⟨h.1, h.2 3⟩

/-- C4: when the configured or default sheet path fails to normalize
(it does not exist or is not accessible), ignition aborts, no sheet is
published, retrieval reports absence, and the single emitted diagnostic
contains the offending path. -/
theorem c4_path_error_aborts (env : Env) (r e : String)
    (hr : resolveRelPath env.sheetPathConfig = .ok r)
    (hn : env.normalize r = .error e) :
    (on_ignite env).1 = none ∧
    from_request (on_ignite env).1 = .forward ∧
    ∃ pre post, (on_ignite env).2 = [pre ++ r ++ post] := by
  have hig : on_ignite env =
      (none, ["Invalid sass sheet file " ++ r ++ ": " ++ e ++ "."]) := by
    simp [on_ignite, compileStage, hr, hn]
  rw [hig]
  refine ⟨rfl, rfl, "Invalid sass sheet file ", ": " ++ e ++ ".", ?_⟩
  simp [String.append_assoc]

/-- Witness for c4_path_error_aborts at envBadPath. -/
theorem c4_witness :
    (on_ignite envBadPath).1 = none ∧
    from_request (on_ignite envBadPath).1 = .forward ∧
    ∃ pre post,
      (on_ignite envBadPath).2 = [pre ++ "assets/style.scss" ++ post] :=
  c4_path_error_aborts envBadPath "assets/style.scss"
    "No such file or directory (os error 2)" rfl rfl

/-- C5: when the compiler rejects the source, ignition aborts, no sheet is
published, retrieval reports absence, and the last emitted diagnostic
carries the compiler diagnostic text verbatim as its suffix. -/
theorem c5_compile_error_aborts (env : Env) (r p e : String)
    (hr : resolveRelPath env.sheetPathConfig = .ok r)
    (hn : env.normalize r = .ok p)
    (hc : env.compile p = .error e) :
    (on_ignite env).1 = none ∧
    from_request (on_ignite env).1 = .forward ∧
    ∃ pre, (on_ignite env).2.getLast? = some (pre ++ e) := by
  have hig : on_ignite env =
      (none, ["Compiling sass... file " ++ p,
              "Couldnt compile sass: " ++ e]) := by
    simp [on_ignite, compileStage, hr, hn, hc]
  rw [hig]
  exact ⟨rfl, rfl, "Couldnt compile sass: ", rfl⟩

/-- Witness for c5_compile_error_aborts at envBadCompile. -/
theorem c5_witness :
    (on_ignite envBadCompile).1 = none ∧
    from_request (on_ignite envBadCompile).1 = .forward ∧
    ∃ pre, (on_ignite envBadCompile).2.getLast? =
      some (pre ++ "Error: expected expression") :=
  c5_compile_error_aborts envBadCompile "assets/style.scss"
    "/www/assets/style.scss" "Error: expected expression" rfl rfl rfl

/-- C6 counterexample: on envMalformedAge2 the cache-lifetime setting is
not absent (it is present but malformed), yet the default 86400 is used:
the default is not used exactly when the setting is absent. -/
theorem c6_counterexample :
    envMalformedAge2.maxAgeConfig ≠ ExtractResult.errMissing ∧
    on_ignite envMalformedAge2 =
      (some { content := "body-css", cache_max_age := 86400,
              path := "/srv/assets/style.scss" },
       ["Compiling sass... file /srv/assets/style.scss"]) :=
  ⟨by decide, rfl⟩

/-- C6 corrected: the default path assets/style.scss is used exactly when
the path setting is absent (a present-but-malformed path setting aborts
instead of defaulting), while the default cache lifetime 86400 is used
whenever the cache-lifetime setting is absent or present but not an
integer; each default applies independently of the other setting. -/
theorem c6_defaults (env : Env) :
    (env.sheetPathConfig = .errMissing →
      on_ignite env =
        on_ignite { env with sheetPathConfig := .ok defaultSheetPath }) ∧
    (∀ e, env.sheetPathConfig = .errOther e → (on_ignite env).1 = none) ∧
    ((env.maxAgeConfig = .errMissing ∨ ∃ e, env.maxAgeConfig = .errOther e) →
      ∀ s log, on_ignite env = (some s, log) → s.cache_max_age = 86400) := by
  refine ⟨fun hmiss => ?_, fun e he => ?_, fun hage s log hig => ?_⟩
  · exact on_ignite_congr _ _ (by rw [hmiss]; rfl) rfl rfl rfl
  · simp [on_ignite, resolveRelPath, he]
  · obtain ⟨r, p, _, _, _, _, hc⟩ := on_ignite_some_inv env s log hig
    rcases hage with hm | ⟨e, ho⟩
    · rw [hc, hm]
      rfl
    · rw [hc, ho]
      rfl

/-- Witness for c6_defaults at envDefaults. -/
theorem c6_witness :
    on_ignite envDefaults =
      on_ignite { envDefaults with sheetPathConfig := .ok defaultSheetPath } ∧
    sheetDefaults.cache_max_age = 86400 :=
  ⟨(c6_defaults envDefaults).1 rfl,
   (c6_defaults envDefaults).2.2 (Or.inl rfl) sheetDefaults
     ["Compiling sass... file /opt/assets/style.scss"] rfl⟩

/-- C7: a path setting that is present but structurally invalid aborts
ignition with a configuration error (no sheet is published), and this
outcome is distinguishable from the missing-value case, in which ignition
behaves exactly as if the default path had been configured: resolution
never silently falls back to the default when a malformed value is
present. -/
theorem c7_malformed_path_aborts (env : Env) (e : String)
    (h : env.sheetPathConfig = .errOther e) :
    on_ignite env = (none, ["config error: " ++ e]) ∧
    on_ignite { env with sheetPathConfig := .errMissing } =
      on_ignite { env with sheetPathConfig := .ok defaultSheetPath } := by
  constructor
  · simp [on_ignite, resolveRelPath, h]
  · exact on_ignite_congr _ _ rfl rfl rfl rfl

/-- Witness for c7_malformed_path_aborts at envBadPathCfg. -/
theorem c7_witness :
    on_ignite envBadPathCfg =
      (none, ["config error: " ++ "invalid utf-8 in value"]) ∧
    on_ignite { envBadPathCfg with sheetPathConfig := .errMissing } =
      on_ignite { envBadPathCfg with
                    sheetPathConfig := .ok defaultSheetPath } :=
  c7_malformed_path_aborts envBadPathCfg "invalid utf-8 in value" rfl

/-- C8 counterexample: startup accepts a configured cache lifetime of -1
and publishes a sheet whose cache lifetime is -1, which is negative. -/
theorem c8_counterexample :
    on_ignite envNegativeAge =
      (some { content := "neg-css", cache_max_age := -1,
              path := "/var/assets/style.scss" },
       ["Compiling sass... file /var/assets/style.scss"]) ∧
    ¬ (0 : Int) ≤ -1 :=
  ⟨rfl, by decide⟩

/-- C8 corrected: the cache lifetime of every published sheet equals the
configured integer when the assets_max_age setting extracts successfully
(startup accepts every integer, including negative values, so the lifetime
is not always non-negative) and 86400 otherwise; it is non-negative
whenever every successfully configured value is non-negative. -/
theorem c8_cache_value (env : Env) (s : SassSheet) (log : List String)
    (h : on_ignite env = (some s, log)) :
    s.cache_max_age = resolveCacheMaxAge env.maxAgeConfig ∧
    ((∀ v, env.maxAgeConfig = .ok v → 0 ≤ v) → 0 ≤ s.cache_max_age) := by
  obtain ⟨r, p, _, _, _, _, hc⟩ := on_ignite_some_inv env s log h
  refine ⟨hc, fun hv => ?_⟩
  rw [hc]
  cases hme : env.maxAgeConfig with
  | ok v => exact hv v hme
  | errMissing => decide
  | errOther e => exact (by decide : (0 : Int) ≤ 86400)

/-- Witness for c8_cache_value at envDefaults. -/
theorem c8_witness :
    sheetDefaults.cache_max_age =
      resolveCacheMaxAge envDefaults.maxAgeConfig ∧
    ((∀ v, envDefaults.maxAgeConfig = .ok v → 0 ≤ v) →
      0 ≤ sheetDefaults.cache_max_age) :=
  c8_cache_value envDefaults sheetDefaults
    ["Compiling sass... file /opt/assets/style.scss"] rfl

/-- C10: the liftoff observer expects a sheet in managed state and panics
(modelled as the none result) when it is absent; under the precondition
that on_ignite completed successfully before liftoff, the managed state
holds the published sheet, so the panic branch is unreachable and the
observer emits its diagnostic lines. -/
theorem c10_liftoff_no_panic (env : Env) (s : SassSheet) (log : List String)
    (h : on_ignite env = (some s, log)) :
    (on_liftoff (on_ignite env).1).isSome = true ∧
    on_liftoff (on_ignite env).1 =
      some ["Assets:", "sheet path: " ++ s.path,
            "cache max age: " ++ toString s.cache_max_age] := by
  rw [h]
  exact ⟨rfl, rfl⟩

/-- Witness for c10_liftoff_no_panic at envMalformedAge. -/
theorem c10_witness :
    (on_liftoff (on_ignite envMalformedAge).1).isSome = true ∧
    on_liftoff (on_ignite envMalformedAge).1 =
      some ["Assets:", "sheet path: " ++ "/app/assets/style.scss",
            "cache max age: " ++ toString (86400 : Int)] :=
  c10_liftoff_no_panic envMalformedAge
    { content := "compiled-css", cache_max_age := 86400,
      path := "/app/assets/style.scss" }
    ["Compiling sass... file /app/assets/style.scss"] rfl

end RocketSass
